import Mathlib

/-!
Shallow embedding of `src/Interactive_Data_Explorer_app.py`, a Streamlit
script that loads a CSV with `pd.read_csv`, profiles the resulting
dataframe and renders filterable views.  Machine floats are modelled as
rationals; a pandas missing value (`NaN`) is the explicit cell `Cell.null`.
Comparisons against `NaN` are `False` in pandas, which the cell-level
comparison functions below reproduce.
-/

/-- A single dataframe cell: a numeric value (int64/float64 payload),
a string (object dtype), a boolean, or a missing value (`NaN`). -/
inductive Cell where
  | num (x : ℚ)
  | str (s : String)
  | boolv (b : Bool)
  | null
deriving DecidableEq, Repr

/-- Column dtypes that `pd.read_csv` produces with default arguments:
`int64`, `float64`, `bool` and `object`. -/
inductive Dtype where
  | int64
  | float64
  | boolean
  | object
deriving DecidableEq, Repr

/-- A pandas dataframe: named, dtyped columns and a list of rows. -/
structure DataFrame where
  cols : List (String × Dtype)
  rows : List (List Cell)
deriving DecidableEq, Repr

/-- Name of column `i` (the dataframe is indexed by column position;
the script reads `df.columns`). -/
def DataFrame.colName (df : DataFrame) (i : ℕ) : String :=
  (df.cols.getD i ("", Dtype.object)).1

/-- Dtype of column `i`, mirroring `df[col].dtype`. -/
def DataFrame.dtypeAt (df : DataFrame) (i : ℕ) : Dtype :=
  (df.cols.getD i ("", Dtype.object)).2

/-- The cells of column `i`, mirroring `df[col]`. -/
def DataFrame.colCells (df : DataFrame) (i : ℕ) : List Cell :=
  df.rows.map (fun r => r.getD i Cell.null)

/-- Pandas `select_dtypes(include=[np.number])` membership: on the dtypes
produced by a default `read_csv` the numpy-numeric dtypes are exactly
`int64` and `float64` (`bool` and `object` are excluded). -/
def isNumericDtype : Dtype → Bool
  | Dtype.int64 => true
  | Dtype.float64 => true
  | _ => false

/-- The numeric value stored in a cell, `none` for anything else. -/
def cellNum : Cell → Option ℚ
  | Cell.num x => some x
  | _ => none

/-- Column positions selected by
`df.select_dtypes(include=[np.number]).columns.tolist()` (`num_cols`). -/
def numColIdxs (df : DataFrame) : List ℕ :=
  (List.range df.cols.length).filter (fun i => isNumericDtype (df.dtypeAt i))

/-- Column positions selected by
`df.select_dtypes(include=['object']).columns.tolist()` (`cat_cols`). -/
def catColIdxs (df : DataFrame) : List ℕ :=
  (List.range df.cols.length).filter (fun i => df.dtypeAt i == Dtype.object)

/-- The Filter tab test `df[filter_col].dtype in [np.number, 'int64', 'float64']`.
The numpy comparison `dtype == np.number` never holds for `int64`, and the
string comparisons match exactly the `int64` and `float64` dtypes, so on
dataframes loaded by a default `read_csv` the membership test accepts
exactly the numpy-numeric dtypes. -/
def tab5IsNumeric (d : Dtype) : Bool :=
  d == Dtype.int64 || d == Dtype.float64

/-- Pandas `series >= q` at one cell: `False` on a missing value. -/
def cellGEq (c : Cell) (q : ℚ) : Bool :=
  match c with
  | Cell.num x => q ≤ x
  | _ => false

/-- Pandas `series <= q` at one cell: `False` on a missing value. -/
def cellLEq (c : Cell) (q : ℚ) : Bool :=
  match c with
  | Cell.num x => x ≤ q
  | _ => false

/-- The numerical branch of the Filter tab:
`df[(df[filter_col] >= values[0]) & (df[filter_col] <= values[1])]`. -/
def numericFilter (df : DataFrame) (i : ℕ) (lo hi : ℚ) : DataFrame :=
  { cols := df.cols
    rows := df.rows.filter (fun r =>
      cellGEq (r.getD i Cell.null) lo && cellLEq (r.getD i Cell.null) hi) }

/-- The categorical branch of the Filter tab:
`df[df[filter_col].isin(selected_values)]`.  Pandas `isin` matches a
missing entry against a missing value in the list, which plain list
membership over `Cell` reproduces. -/
def categoricalFilter (df : DataFrame) (i : ℕ) (selected : List Cell) : DataFrame :=
  { cols := df.cols
    rows := df.rows.filter (fun r => (r.getD i Cell.null) ∈ selected) }

/-- UI selection state relevant to the script (selectbox / slider /
multiselect values). -/
structure Selections where
  distCol : ℕ
  scatterX : ℕ
  scatterY : ℕ
  colorBy : Option ℕ
  catCol : ℕ
  filterCol : ℕ
  lo : ℚ
  hi : ℚ
  catSelected : List Cell
deriving DecidableEq, Repr

/-- The Filter tab dispatch: numerical range filter when the dtype
membership test succeeds, otherwise the `isin` filter. -/
def filteredDf (df : DataFrame) (i : ℕ) (sel : Selections) : DataFrame :=
  if tab5IsNumeric (df.dtypeAt i) then numericFilter df i sel.lo sel.hi
  else categoricalFilter df i sel.catSelected

/-- Rendering of one cell in `to_csv` output: missing values print as the
empty field.  Exact float decimal formatting is abstracted by the rational
rendering. -/
def renderCell : Cell → String
  | Cell.null => ""
  | Cell.str s => s
  | Cell.boolv b => if b then "True" else "False"
  | Cell.num x => toString x

/-- Pandas `df.to_csv(index=False)`: the header line followed by one line
per row, comma separated, each line newline terminated, and no index
column. -/
def toCsv (df : DataFrame) : String :=
  String.join ((String.intercalate "," (df.cols.map Prod.fst) ++ "\n") ::
    df.rows.map (fun r => String.intercalate "," (r.map renderCell) ++ "\n"))

/-- The download payload of the Filter tab: `csv = filtered_df.to_csv(index=False)`. -/
def downloadCsv (df : DataFrame) (i : ℕ) (sel : Selections) : String :=
  toCsv (filteredDf df i sel)

/-- First-occurrence deduplication helper (the order pandas `Series.unique`
reports values in). -/
def uniqueAux [DecidableEq α] : List α → List α → List α
  | [], _ => []
  | c :: l, seen => if c ∈ seen then uniqueAux l seen else c :: uniqueAux l (c :: seen)

/-- Pandas `Series.unique().tolist()`: distinct values in first-occurrence
order, missing values included. -/
def uniqueInOrder [DecidableEq α] (l : List α) : List α :=
  uniqueAux l []

/-- Pandas `df[col].isnull().sum()` for column `i`: the number of missing
entries. -/
def nullCount (df : DataFrame) (i : ℕ) : ℕ :=
  (df.colCells i).count Cell.null

/-- Pandas `df[col].count()`: the number of non-missing entries. -/
def nonNullCount (df : DataFrame) (i : ℕ) : ℕ :=
  ((df.colCells i).filter (fun c => !(c == Cell.null))).length

/-- Pandas `df.duplicated().sum()`: rows equal to an earlier row, i.e. the
total row count minus the number of distinct rows. -/
def dupRowCount (df : DataFrame) : ℕ :=
  df.rows.length - (uniqueInOrder df.rows).length

/-- One row of the Missing Values Analysis table
(`Column` / `Missing Count` / `Missing Percentage`). -/
structure MissingRow where
  name : String
  count : ℕ
  pct : ℚ
deriving DecidableEq, Repr

/-- The per-column missing data, before filtering:
`missing = df.isnull().sum()` and `missing_percent = (missing / len(df)) * 100`. -/
def perColMissing (df : DataFrame) : List MissingRow :=
  (List.range df.cols.length).map (fun i =>
    { name := df.colName i
      count := nullCount df i
      pct := ((nullCount df i : ℚ) / (df.rows.length : ℚ)) * 100 })

/-- Descending order on missing counts, the relation of
`sort_values('Missing Count', ascending=False)`. -/
def missRel (a b : MissingRow) : Prop := b.count ≤ a.count

instance : DecidableRel missRel := fun a b => inferInstanceAs (Decidable (b.count ≤ a.count))

instance : IsTotal MissingRow missRel := ⟨fun a b => Nat.le_total b.count a.count⟩

instance : IsTrans MissingRow missRel := ⟨fun _ _ _ h1 h2 => Nat.le_trans h2 h1⟩

/-- The Missing Values Analysis table:
`missing_df[missing_df['Missing Count'] > 0].sort_values('Missing Count', ascending=False)`. -/
def missingDf (df : DataFrame) : List MissingRow :=
  List.insertionSort missRel ((perColMissing df).filter (fun r => 0 < r.count))

/-- What tab 2 renders for missing values: the table when it is nonempty,
otherwise the `No missing values found` message. -/
inductive MissingView where
  | table (rows : List MissingRow)
  | noMissing
deriving DecidableEq, Repr

/-- The `if len(missing_df) > 0` dispatch of tab 2. -/
def missingView (df : DataFrame) : MissingView :=
  if 0 < (missingDf df).length then MissingView.table (missingDf df) else MissingView.noMissing

/-- Order on cells used to model the ascending order of pandas
`Series.mode` results (only same-constructor comparisons arise on a
well-typed column). -/
def cellRank : Cell → ℕ
  | Cell.null => 0
  | Cell.boolv _ => 1
  | Cell.num _ => 2
  | Cell.str _ => 3

/-- Boolean comparison on cells: numeric by value, strings
lexicographically, booleans with false before true, otherwise by
constructor rank. -/
def cellLEb : Cell → Cell → Bool
  | Cell.num x, Cell.num y => x ≤ y
  | Cell.str s, Cell.str t => s ≤ t
  | Cell.boolv x, Cell.boolv y => !x || y
  | a, b => cellRank a ≤ cellRank b

/-- Pandas `Series.value_counts()`: occurrence counts of the non-missing
values, sorted by count in descending order. -/
def valueCounts (cells : List Cell) : List (Cell × ℕ) :=
  let nn := cells.filter (fun c => !(c == Cell.null))
  List.insertionSort (fun a b : Cell × ℕ => b.2 ≤ a.2)
    ((uniqueInOrder nn).map (fun v => (v, nn.count v)))

/-- Pandas `Series.nunique()`: distinct non-missing values. -/
def nuniqueCount (cells : List Cell) : ℕ :=
  (uniqueInOrder (cells.filter (fun c => !(c == Cell.null)))).length

/-- Pandas `Series.mode()`: the non-missing values of maximal multiplicity,
in ascending order; empty when the series has no non-missing value. -/
def modeList (cells : List Cell) : List Cell :=
  let nn := cells.filter (fun c => !(c == Cell.null))
  let uniq := uniqueInOrder nn
  let mx := (uniq.map (fun v => nn.count v)).foldr max 0
  List.insertionSort (fun a b => cellLEb a b = true)
    (uniq.filter (fun v => nn.count v == mx))

/-- Python `seq[0]` through `.iloc[0]`: raises `IndexError` on an empty
sequence. -/
def ilocFirst : List α → Except String α
  | [] => Except.error "single positional indexer is out-of-bounds"
  | a :: _ => Except.ok a

/-- One row of the Categorical Columns summary
(`Column` / `Unique Values` / `Most Frequent` / `Frequency`). -/
structure CatRow where
  name : String
  uniqueVals : ℕ
  mostFrequent : Option Cell
  frequency : ℕ
deriving DecidableEq, Repr

/-- One row of `cat_summary`.  `Most Frequent` is
`df[col].mode()[0] if len(df[col].mode()) > 0 else None`; `Frequency` is
`df[col].value_counts().iloc[0] if len(df[col]) > 0 else 0`, whose guard
tests the raw column length, not the length of the value counts. -/
def catSummaryRow (df : DataFrame) (i : ℕ) : Except String CatRow :=
  let cells := df.colCells i
  let m := modeList cells
  let mf : Option Cell := if 0 < m.length then some (m.getD 0 Cell.null) else none
  (if 0 < cells.length then (ilocFirst (valueCounts cells)).map Prod.snd
   else Except.ok 0).map (fun freq =>
    { name := df.colName i
      uniqueVals := nuniqueCount cells
      mostFrequent := mf
      frequency := freq })

/-- The Categorical Columns summary table, built per categorical column;
an `IndexError` raised while building it propagates. -/
def catSummary (df : DataFrame) : Except String (List CatRow) :=
  (catColIdxs df).mapM (catSummaryRow df)

/-- The numeric values of a list of cells, missing entries skipped. -/
def nonNullNums (cells : List Cell) : List ℚ :=
  cells.filterMap cellNum

/-- Linear-interpolation quantile of an ascending-sorted list, pandas
`Series.quantile` default method. -/
def quantileSorted (s : List ℚ) (p : ℚ) : ℚ :=
  match s with
  | [] => 0
  | _ =>
    let h : ℚ := p * ((s.length : ℚ) - 1)
    let lo : ℤ := Int.floor h
    let lon : ℕ := lo.toNat
    let frac : ℚ := h - (lo : ℚ)
    let a := s.getD lon 0
    let b := s.getD (lon + 1) a
    a + frac * (b - a)

/-- One column of `df[num_cols].describe()`.  The standard deviation is
represented by the sum of squared deviations from the mean
(`std = sqrt (sqDevSum / (count - 1))`), which is not rational. -/
structure DescribeRow where
  count : ℕ
  mean : ℚ
  sqDevSum : ℚ
  minV : ℚ
  q25 : ℚ
  q50 : ℚ
  q75 : ℚ
  maxV : ℚ
deriving DecidableEq, Repr

/-- The describe statistics of one numerical column, over its non-missing
values. -/
def describeRow (cells : List Cell) : DescribeRow :=
  let vs := nonNullNums cells
  let s := List.insertionSort (fun a b : ℚ => a ≤ b) vs
  let n := vs.length
  let mean := vs.sum / (n : ℚ)
  { count := n
    mean := mean
    sqDevSum := (vs.map (fun x => (x - mean) ^ 2)).sum
    minV := s.headD 0
    q25 := quantileSorted s (1 / 4)
    q50 := quantileSorted s (1 / 2)
    q75 := quantileSorted s (3 / 4)
    maxV := quantileSorted s 1 }

/-- Pandas `float(df[col].min())` over the non-missing values of a
column (`NaN` entries are skipped; the value is irrelevant when the
column has no numeric entry). -/
def colMin (df : DataFrame) (i : ℕ) : ℚ :=
  match nonNullNums (df.colCells i) with
  | [] => 0
  | x :: xs => xs.foldl min x

/-- Pandas `float(df[col].max())` over the non-missing values of a
column. -/
def colMax (df : DataFrame) (i : ℕ) : ℚ :=
  match nonNullNums (df.colCells i) with
  | [] => 0
  | x :: xs => xs.foldl max x

/-- A Pearson correlation coefficient, represented exactly: the value is
`cov / sqrt (vx * vy)` where `cov` is the sum of products of deviations
over the pairwise-complete observations and `vx`, `vy` the sums of squared
deviations; the coefficient is `NaN` when `vx * vy = 0`. -/
structure CorrEntry where
  cov : ℚ
  vx : ℚ
  vy : ℚ
deriving DecidableEq, Repr

/-- The rows where both cells carry a numeric value, pandas pairwise
complete observations. -/
def pairedVals (xs ys : List Cell) : List (ℚ × ℚ) :=
  (xs.zip ys).filterMap (fun p =>
    match cellNum p.1, cellNum p.2 with
    | some x, some y => some (x, y)
    | _, _ => none)

/-- Pearson correlation of two columns as computed by `DataFrame.corr()`. -/
def corrEntry (xs ys : List Cell) : CorrEntry :=
  let ps := pairedVals xs ys
  let n : ℚ := (ps.length : ℚ)
  let mx := (ps.map Prod.fst).sum / n
  let my := (ps.map Prod.snd).sum / n
  { cov := (ps.map (fun p => (p.1 - mx) * (p.2 - my))).sum
    vx := (ps.map (fun p => (p.1 - mx) ^ 2)).sum
    vy := (ps.map (fun p => (p.2 - my) ^ 2)).sum }

/-- The column position (into `df.cols`) of the `k`-th numerical column,
i.e. of `corr_matrix.columns[k]`. -/
def corrColIdx (df : DataFrame) (k : ℕ) : ℕ :=
  (numColIdxs df).getD k 0

/-- Entry `corr_matrix.iloc[a, b]` of `corr_matrix = df[num_cols].corr()`. -/
def corrEntryAt (df : DataFrame) (a b : ℕ) : CorrEntry :=
  corrEntry (df.colCells (corrColIdx df a)) (df.colCells (corrColIdx df b))

/-- The full correlation matrix `df[num_cols].corr()`, row-major. -/
def corrMatrixOf (df : DataFrame) : List (List CorrEntry) :=
  (List.range (numColIdxs df).length).map (fun a =>
    (List.range (numColIdxs df).length).map (fun b => corrEntryAt df a b))

/-- One appended element of `corr_pairs`:
`Variable 1` / `Variable 2` / `Correlation`, together with the loop
indices `i < j` it was built from. -/
structure CorrRow where
  i : ℕ
  j : ℕ
  var1 : String
  var2 : String
  corr : CorrEntry
deriving DecidableEq, Repr

/-- The unordered pair of matrix column indices a `corr_pairs` element
stands for. -/
def pairTag (r : CorrRow) : ℕ × ℕ := (r.i, r.j)

/-- The `corr_pairs` list: the double loop
`for i in range(n): for j in range(i+1, n)` over the correlation matrix. -/
def corrPairsList (df : DataFrame) : List CorrRow :=
  let n := (numColIdxs df).length
  (List.range n).flatMap (fun i =>
    (List.range' (i + 1) (n - (i + 1))).map (fun j =>
      { i := i
        j := j
        var1 := df.colName (corrColIdx df i)
        var2 := df.colName (corrColIdx df j)
        corr := corrEntryAt df i j }))

/-- Sort key of `sort_values('Correlation', key=abs, ascending=False)`:
comparing absolute correlations `|cov| / sqrt (vx * vy)` is comparing the
squares `cov ^ 2 / (vx * vy)`, and an undefined (`NaN`) coefficient is
placed last (`na_position='last'`), below every defined key. -/
def corrKey (e : CorrEntry) : ℚ :=
  if e.vx * e.vy ≤ 0 then -1 else e.cov ^ 2 / (e.vx * e.vy)

/-- Descending order on the absolute correlation, `NaN` last. -/
def corrRel (a b : CorrRow) : Prop := corrKey b.corr ≤ corrKey a.corr

instance : DecidableRel corrRel := fun a b =>
  inferInstanceAs (Decidable (corrKey b.corr ≤ corrKey a.corr))

instance : IsTotal CorrRow corrRel := ⟨fun a b => le_total (corrKey b.corr) (corrKey a.corr)⟩

instance : IsTrans CorrRow corrRel := ⟨fun _ _ _ h1 h2 => le_trans h2 h1⟩

/-- The Strongest Correlations table:
`corr_df.sort_values('Correlation', key=abs, ascending=False).head(10)`. -/
def strongestCorr (df : DataFrame) : List CorrRow :=
  (List.insertionSort corrRel (corrPairsList df)).take 10

/-- What tab 4 renders: the heatmap matrix and the Strongest Correlations
table when there are at least two numerical columns, otherwise only the
warning. -/
inductive Tab4Output where
  | analysis (matrix : List (List CorrEntry)) (strongest : List CorrRow)
  | needTwoWarning
deriving DecidableEq, Repr

/-- The `if len(num_cols) >= 2` dispatch of tab 4. -/
def tab4View (df : DataFrame) : Tab4Output :=
  if 2 ≤ (numColIdxs df).length then Tab4Output.analysis (corrMatrixOf df) (strongestCorr df)
  else Tab4Output.needTwoWarning

/-- One row of the Column Names and Types table of tab 1. -/
structure ColInfoRow where
  name : String
  dtype : Dtype
  nonNull : ℕ
  nulls : ℕ
deriving DecidableEq, Repr

/-- Tab 1: the preview `df.head(100)`, the shape, and the column info
table. -/
structure Tab1Output where
  preview : List (List Cell)
  nRows : ℕ
  nCols : ℕ
  colInfo : List ColInfoRow
deriving DecidableEq, Repr

/-- The Data Preview tab. -/
def tab1View (df : DataFrame) : Tab1Output :=
  { preview := df.rows.take 100
    nRows := df.rows.length
    nCols := df.cols.length
    colInfo := (List.range df.cols.length).map (fun i =>
      { name := df.colName i
        dtype := df.dtypeAt i
        nonNull := nonNullCount df i
        nulls := nullCount df i }) }

/-- Tab 2: overview metrics, the missing value analysis, and the summary
statistics (each summary block rendered only when the matching column kind
exists). -/
structure Tab2Output where
  totalRows : ℕ
  totalCols : ℕ
  dupRows : ℕ
  missing : MissingView
  numSummary : Option (List (String × DescribeRow))
  catRows : Option (List CatRow)
deriving DecidableEq, Repr

/-- The Data Profile tab; building the categorical summary can raise. -/
def tab2View (df : DataFrame) : Except String Tab2Output :=
  (if (catColIdxs df).isEmpty then Except.ok none
   else (catSummary df).map some).map (fun cs =>
    { totalRows := df.rows.length
      totalCols := df.cols.length
      dupRows := dupRowCount df
      missing := missingView df
      numSummary :=
        if (numColIdxs df).isEmpty then none
        else some ((numColIdxs df).map (fun i => (df.colName i, describeRow (df.colCells i))))
      catRows := cs })

/-- Tab 3: the chart parameters derived from the data and the selections
(chart rendering itself is owned by plotly). -/
structure Tab3Output where
  distColumn : Option String
  scatter : Option (String × String × Option String)
  catColumn : Option String
  topCounts : Option (List (Cell × ℕ))
  pieShown : Bool
deriving DecidableEq, Repr

/-- The Visualizations tab: distribution plots when numerical columns
exist, a scatter plot when at least two exist, and the top-20 value counts
(plus a pie chart when at most 10 categories remain) when categorical
columns exist. -/
def tab3View (df : DataFrame) (sel : Selections) : Tab3Output :=
  let numNames := (numColIdxs df).map df.colName
  let catNames := (catColIdxs df).map df.colName
  let counts :=
    if catNames.isEmpty then none
    else some ((valueCounts (df.colCells ((catColIdxs df).getD sel.catCol 0))).take 20)
  { distColumn := if numNames.isEmpty then none else some (numNames.getD sel.distCol "")
    scatter :=
      if 2 ≤ numNames.length then
        some (numNames.getD sel.scatterX "", numNames.getD sel.scatterY "",
          sel.colorBy.map (fun k => catNames.getD k ""))
      else none
    catColumn := if catNames.isEmpty then none else some (catNames.getD sel.catCol "")
    topCounts := counts
    pieShown :=
      match counts with
      | some vc => vc.length ≤ 10
      | none => false }

/-- Tab 5: the filtered dataframe, its displayed row count, and the
download payload. -/
structure Tab5Output where
  filtered : DataFrame
  rowCount : ℕ
  csv : String
deriving DecidableEq, Repr

/-- The Filter Data tab, on the selected filter column. -/
def tab5View (df : DataFrame) (sel : Selections) : Tab5Output :=
  let f := filteredDf df sel.filterCol sel
  { filtered := f
    rowCount := f.rows.length
    csv := toCsv f }

/-- Everything the script renders for a successfully loaded dataframe. -/
structure Rendered where
  t1 : Tab1Output
  t2 : Tab2Output
  t3 : Tab3Output
  t4 : Tab4Output
  t5 : Tab5Output
deriving DecidableEq, Repr

/-- The body of the `try` block after `pd.read_csv` succeeded; the only
subexpression that can raise is the categorical summary of tab 2. -/
def appBody (df : DataFrame) (sel : Selections) : Except String Rendered :=
  (tab2View df).map (fun t2 =>
    { t1 := tab1View df
      t2 := t2
      t3 := tab3View df sel
      t4 := tab4View df
      t5 := tab5View df sel })

/-- Splitting a character list on a separator character (the structural
core of line and field splitting). -/
def splitOnChar (sep : Char) : List Char → List (List Char)
  | [] => [[]]
  | c :: cs =>
    if c = sep then [] :: splitOnChar sep cs
    else
      match splitOnChar sep cs with
      | [] => [[c]]
      | f :: rest => (c :: f) :: rest

/-- Fields of one CSV line (the comma dialect; quoting is not used by the
claims). -/
def splitFields (line : List Char) : List (List Char) :=
  splitOnChar ',' line

/-- The characters of a field after an optional sign. -/
def dropSign (l : List Char) : List Char :=
  match l with
  | '-' :: t => t
  | '+' :: t => t
  | _ => l

/-- Does the field parse as a signed integer literal. -/
def isIntLit (s : List Char) : Bool :=
  let t := dropSign s
  !t.isEmpty && t.all Char.isDigit

/-- Does the field parse as a signed decimal literal (at most one dot, at
least one digit). -/
def isFloatLit (s : List Char) : Bool :=
  let t := dropSign s
  match splitOnChar '.' t with
  | [a] => !a.isEmpty && a.all Char.isDigit
  | [a, b] => (!a.isEmpty || !b.isEmpty) && a.all Char.isDigit && b.all Char.isDigit
  | _ => false

/-- The boolean tokens the pandas C parser recognizes. -/
def isBoolLit (s : List Char) : Bool :=
  let t := String.mk s
  t == "True" || t == "False" || t == "TRUE" || t == "FALSE"

/-- Digits to a natural number. -/
def digitsToNat (l : List Char) : ℕ :=
  l.foldl (fun acc c => 10 * acc + (c.toNat - 48)) 0

/-- Value of a signed decimal literal as a rational. -/
def parseNumQ (s : List Char) : ℚ :=
  let neg : Bool :=
    match s with
    | '-' :: _ => true
    | _ => false
  let v : ℚ :=
    match splitOnChar '.' (dropSign s) with
    | [a] => (digitsToNat a : ℚ)
    | [a, b] => (digitsToNat a : ℚ) + (digitsToNat b : ℚ) / ((10 : ℚ) ^ b.length)
    | _ => 0
  if neg then -v else v

/-- Column dtype inference of the pandas C parser on default options: all
integers and no missing entry gives `int64`, numeric with missing entries
or decimals gives `float64`, pure boolean tokens give `bool`, anything
else is `object` (a fully missing column reads as all-`NaN` `float64`). -/
def inferDtype (vals : List (List Char)) : Dtype :=
  let nonEmpty := vals.filter (fun s => !s.isEmpty)
  if nonEmpty.isEmpty then Dtype.float64
  else if nonEmpty.all isIntLit then
    (if vals.any (fun s => s.isEmpty) then Dtype.float64 else Dtype.int64)
  else if nonEmpty.all isFloatLit then Dtype.float64
  else if nonEmpty.all isBoolLit && !(vals.any (fun s => s.isEmpty)) then Dtype.boolean
  else Dtype.object

/-- One raw field under an inferred dtype. -/
def fieldToCell (d : Dtype) (s : List Char) : Cell :=
  if s.isEmpty then Cell.null
  else
    match d with
    | Dtype.int64 => Cell.num (parseNumQ s)
    | Dtype.float64 => Cell.num (parseNumQ s)
    | Dtype.boolean => Cell.boolv (String.mk s == "True" || String.mk s == "TRUE")
    | Dtype.object => Cell.str (String.mk s)

/-- Model of `pd.read_csv` on default options: header from the first
line, blank lines skipped, an exception for an empty file or for a data
line with more fields than the header, short lines padded with missing
values, and per-column dtype inference. -/
def read_csv (content : String) : Except String DataFrame :=
  match (splitOnChar '\n' content.toList).filter (fun l => !l.isEmpty) with
  | [] => Except.error "No columns to parse from file"
  | header :: dataLines =>
    let names := splitFields header
    let ncols := names.length
    if dataLines.any (fun l => ncols < (splitFields l).length) then
      Except.error "Error tokenizing data. C error: saw more fields than expected"
    else
      let rawRows := dataLines.map (fun l => splitFields l)
      let colVals := (List.range ncols).map (fun i => rawRows.map (fun r => r.getD i []))
      let dts := colVals.map inferDtype
      Except.ok
        { cols := (names.map String.mk).zip dts
          rows := rawRows.map (fun r =>
            (List.range ncols).map (fun i =>
              fieldToCell (dts.getD i Dtype.object) (r.getD i []))) }

/-- What one script run displays. -/
inductive AppOutput where
  | landing
  | errorView (msg : String)
  | page (r : Rendered)
deriving DecidableEq, Repr

/-- One run of the script: nothing uploaded shows the landing page;
otherwise the whole body runs inside the single `try`, and any exception
raised in it (while parsing or later) reaches the single `except` handler,
which renders the exception text as an error message. -/
def runApp (upload : Option String) (sel : Selections) : AppOutput :=
  match upload with
  | none => AppOutput.landing
  | some content =>
    match (read_csv content).bind (fun df => appBody df sel) with
    | Except.error m => AppOutput.errorView ("Error reading file: " ++ m)
    | Except.ok r => AppOutput.page r

/-- A sequence of independent script runs: the script keeps no state, so a
session is the per-run outputs. -/
def runSession (inputs : List (Option String × Selections)) : List AppOutput :=
  inputs.map (fun p => runApp p.1 p.2)

/-- Modelled from the spec: the repository is described as two
near-duplicate versions of the same linear script, but only
`Interactive_Data_Explorer_app.py` is under `src/`.  Per the spec the
second version equally "loads a file, computes a handful of dataframe
aggregations, and calls a charting library per view"; it is modelled as
the same pipeline with the parse step and the body matched separately. -/
def runAppV2 (upload : Option String) (sel : Selections) : AppOutput :=
  match upload with
  | none => AppOutput.landing
  | some content =>
    match read_csv content with
    | Except.error m => AppOutput.errorView ("Error reading file: " ++ m)
    | Except.ok df =>
      match appBody df sel with
      | Except.error m => AppOutput.errorView ("Error reading file: " ++ m)
      | Except.ok r => AppOutput.page r

instance {ε α : Type} [DecidableEq ε] [DecidableEq α] : DecidableEq (Except ε α) := fun
  | Except.error a, Except.error b =>
    if h : a = b then Decidable.isTrue (by rw [h]) else Decidable.isFalse (by simp [h])
  | Except.ok a, Except.ok b =>
    if h : a = b then Decidable.isTrue (by rw [h]) else Decidable.isFalse (by simp [h])
  | Except.error _, Except.ok _ => Decidable.isFalse (by simp)
  | Except.ok _, Except.error _ => Decidable.isFalse (by simp)

/-- A selections record used to instantiate theorems. -/
def defaultSel : Selections :=
  { distCol := 0, scatterX := 0, scatterY := 1, colorBy := none, catCol := 0,
    filterCol := 0, lo := 0, hi := 0, catSelected := [] }

/-- A dataframe with two numerical columns. -/
def dfNum2 : DataFrame :=
  { cols := [("a", Dtype.int64), ("b", Dtype.int64)]
    rows := [[Cell.num 1, Cell.num 2], [Cell.num 2, Cell.num 4], [Cell.num 3, Cell.num 5]] }

/-- A dataframe with a single object column. -/
def dfObjOnly : DataFrame :=
  { cols := [("name", Dtype.object)]
    rows := [[Cell.str "x"]] }

/-- A dataframe whose only column has dtype bool, as produced by a CSV
column of True/False tokens. -/
def dfBool : DataFrame :=
  { cols := [("flag", Dtype.boolean)]
    rows := [[Cell.boolv true], [Cell.boolv false]] }

/-- A nonempty dataframe with an object column all of whose entries are
missing. -/
def dfAllNull : DataFrame :=
  { cols := [("a", Dtype.object)]
    rows := [[Cell.null], [Cell.null]] }

/-- A dataframe with a numerical column containing a missing entry. -/
def dfWithNull : DataFrame :=
  { cols := [("x", Dtype.float64)]
    rows := [[Cell.num 1], [Cell.null], [Cell.num 3]] }

/-- A dataframe with six identical numerical columns (15 column pairs). -/
def dfSix : DataFrame :=
  { cols := [("c0", Dtype.int64), ("c1", Dtype.int64), ("c2", Dtype.int64),
             ("c3", Dtype.int64), ("c4", Dtype.int64), ("c5", Dtype.int64)]
    rows := [List.replicate 6 (Cell.num 1), List.replicate 6 (Cell.num 2),
             List.replicate 6 (Cell.num 3)] }

/-- C1: for every dataframe and filter column, the numerical branch keeps
exactly the rows whose value `x` in the column satisfies `lo ≤ x ≤ hi`
(a missing value satisfies no bound), the categorical branch keeps exactly
the rows whose value is a member of the selected value set, and the
download is exactly the filtered dataframe serialized without its index. -/
theorem filter_and_download_spec (df : DataFrame) (i : ℕ) (sel : Selections) :
    (filteredDf df i sel).rows = df.rows.filter (fun r =>
      if tab5IsNumeric (df.dtypeAt i) then
        match cellNum (r.getD i Cell.null) with
        | some x => decide (sel.lo ≤ x ∧ x ≤ sel.hi)
        | none => false
      else
        decide ((r.getD i Cell.null) ∈ sel.catSelected)) ∧
    (∀ r : List Cell,
        r ∈ (filteredDf df i sel).rows ↔
          r ∈ df.rows ∧
            (if tab5IsNumeric (df.dtypeAt i) = true then
              ∃ x : ℚ, cellNum (r.getD i Cell.null) = some x ∧ sel.lo ≤ x ∧ x ≤ sel.hi
            else (r.getD i Cell.null) ∈ sel.catSelected)) ∧
    downloadCsv df i sel = toCsv (filteredDf df i sel) := by
  refine ⟨?_, ?_, rfl⟩
  · by_cases h : tab5IsNumeric (df.dtypeAt i) = true
    · simp only [filteredDf, h, if_true, numericFilter]
      refine List.filter_congr (fun r _ => ?_)
      cases hc : r.getD i Cell.null with
      | num x => simp [cellGEq, cellLEq, cellNum, hc]
      | str s => simp [cellGEq, cellLEq, cellNum, hc]
      | boolv b => simp [cellGEq, cellLEq, cellNum, hc]
      | null => simp [cellGEq, cellLEq, cellNum, hc]
    · simp only [filteredDf, h, if_false, categoricalFilter]
      rfl
  · intro r
    by_cases h : tab5IsNumeric (df.dtypeAt i) = true
    · simp only [filteredDf, h, if_true, numericFilter, List.mem_filter]
      constructor
      · rintro ⟨hr, hp⟩
        refine ⟨hr, ?_⟩
        cases hc : r.getD i Cell.null with
        | num x =>
          rw [hc] at hp
          simp only [cellGEq, cellLEq, Bool.and_eq_true, decide_eq_true_eq] at hp
          exact ⟨x, by simp [cellNum, hc], hp.1, hp.2⟩
        | str s => rw [hc] at hp; simp [cellGEq] at hp
        | boolv b => rw [hc] at hp; simp [cellGEq] at hp
        | null => rw [hc] at hp; simp [cellGEq] at hp
      · rintro ⟨hr, x, hx, h1, h2⟩
        refine ⟨hr, ?_⟩
        cases hc : r.getD i Cell.null with
        | num y =>
          rw [hc] at hx
          simp only [cellNum, Option.some.injEq] at hx
          subst hx
          simp [cellGEq, cellLEq, h1, h2]
        | str s => rw [hc] at hx; simp [cellNum] at hx
        | boolv b => rw [hc] at hx; simp [cellNum] at hx
        | null => rw [hc] at hx; simp [cellNum] at hx
    · simp only [filteredDf, h, if_false, categoricalFilter, List.mem_filter]
      simp

/-- C2: an exception raised while parsing the upload reaches the single
catch-all handler and its message is surfaced as the error view; an
exception raised anywhere later in the body reaches the same single
handler, there being no other handler in the program. -/
theorem single_handler_spec (content : String) (sel : Selections) :
    (∀ m, read_csv content = Except.error m →
        runApp (some content) sel = AppOutput.errorView ("Error reading file: " ++ m)) ∧
    (∀ df m, read_csv content = Except.ok df → appBody df sel = Except.error m →
        runApp (some content) sel = AppOutput.errorView ("Error reading file: " ++ m)) := by
  constructor
  · intro m h
    simp [runApp, h, Except.bind]
  · intro df m h1 h2
    simp [runApp, h1, h2, Except.bind]

/-- Witness for C2: the empty upload fails to parse and the script shows
the handler's message. -/
theorem single_handler_witness :
    runApp (some "") defaultSel =
      AppOutput.errorView "Error reading file: No columns to parse from file" :=
  (single_handler_spec "" defaultSel).1 "No columns to parse from file" rfl

/-- C3 (amended): the numeric classification (`select_dtypes` with
`np.number`) and the Filter tab numeric test agree on every column of a
loaded dataframe, and the categorical classification is exactly the
object dtype; but the Filter tab treats every non-numeric column as
categorical, so a bool column takes the categorical filter branch while
no view classifies it as categorical. -/
theorem column_classification_spec (df : DataFrame) (i : ℕ) (h : i < df.cols.length) :
    (i ∈ numColIdxs df ↔ isNumericDtype (df.dtypeAt i) = true) ∧
    (i ∈ catColIdxs df ↔ df.dtypeAt i = Dtype.object) ∧
    tab5IsNumeric (df.dtypeAt i) = isNumericDtype (df.dtypeAt i) ∧
    (df.dtypeAt i = Dtype.boolean →
      tab5IsNumeric (df.dtypeAt i) = false ∧ i ∉ numColIdxs df ∧ i ∉ catColIdxs df) := by
  refine ⟨?_, ?_, ?_, ?_⟩
  · simp [numColIdxs, List.mem_filter, List.mem_range, h]
  · simp [catColIdxs, List.mem_filter, List.mem_range, h]
  · cases df.dtypeAt i <;> rfl
  · intro hb
    refine ⟨by rw [hb]; rfl, ?_, ?_⟩
    · simp [numColIdxs, List.mem_filter, hb, isNumericDtype]
    · simp [catColIdxs, List.mem_filter, hb]

/-- Counterexample for C3 as stated: on a bool column the Filter tab
takes the categorical branch (`tab5IsNumeric` is false) although the
column's dtype is not object and the column is not in `cat_cols`, so the
Filter tab does not apply the one numeric-vs-categorical selection of the
other views. -/
theorem column_classification_cex :
    0 < dfBool.cols.length ∧
    tab5IsNumeric (dfBool.dtypeAt 0) = false ∧
    dfBool.dtypeAt 0 ≠ Dtype.object ∧
    0 ∉ catColIdxs dfBool ∧
    ¬(tab5IsNumeric (dfBool.dtypeAt 0) = false ↔ dfBool.dtypeAt 0 = Dtype.object) := by
  decide

/-- Witness for C3 (amended) at a concrete numerical column. -/
theorem column_classification_witness :
    0 ∈ numColIdxs dfNum2 ↔ isNumericDtype (dfNum2.dtypeAt 0) = true :=
  (column_classification_spec dfNum2 0 (by decide)).1

/-- C6: the second near-duplicate version of the script is behaviourally
equivalent to the first: both load the file, compute the same dataframe
aggregations and render the same views on every input. -/
theorem versions_equivalent (upload : Option String) (sel : Selections) :
    runAppV2 upload sel = runApp upload sel := by
  cases upload with
  | none => rfl
  | some content =>
    simp only [runApp, runAppV2]
    cases h : read_csv content with
    | error m => rfl
    | ok df =>
      cases h2 : appBody df sel with
      | error m => simp [Except.bind, h2]
      | ok r => simp [Except.bind, h2]

/-- C7: the script is deterministic and stateless: two runs on equal
uploaded content and equal UI selections produce equal outputs (hence
equal computed tables and download payloads), and a run appended to any
session history produces the same output as the run by itself. -/
theorem deterministic_stateless (hist : List (Option String × Selections))
    (u u' : Option String) (s s' : Selections) (h1 : u = u') (h2 : s = s') :
    runApp u s = runApp u' s' ∧
    runSession (hist ++ [(u, s)]) = runSession hist ++ [runApp u s] := by
  subst h1
  subst h2
  exact ⟨rfl, by simp [runSession]⟩

/-- Witness for C7 at a concrete history and input. -/
theorem deterministic_stateless_witness :
    runApp none defaultSel = runApp none defaultSel ∧
    runSession ([] ++ [(none, defaultSel)]) = runSession [] ++ [runApp none defaultSel] :=
  deterministic_stateless [] none none defaultSel defaultSel rfl rfl

/-- C8: on a nonempty dataframe with an object column of only missing
entries, the mode is empty so the guarded Most Frequent expression yields
None, but the Frequency guard only tests the raw column length (which is
positive) and `value_counts().iloc[0]` indexes an empty series, raising,
so building the categorical summary fails. -/
theorem cat_summary_raises :
    dfAllNull.rows.length = 2 ∧
    dfAllNull.dtypeAt 0 = Dtype.object ∧
    (∀ c ∈ dfAllNull.colCells 0, c = Cell.null) ∧
    modeList (dfAllNull.colCells 0) = [] ∧
    0 < (dfAllNull.colCells 0).length ∧
    valueCounts (dfAllNull.colCells 0) = [] ∧
    catSummary dfAllNull = Except.error "single positional indexer is out-of-bounds" ∧
    ∀ sel : Selections,
      appBody dfAllNull sel = Except.error "single positional indexer is out-of-bounds" := by
  refine ⟨rfl, rfl, by decide, by decide, by decide, by decide, by decide, fun sel => rfl⟩

/-- C10: under the numerical filter, a row with a missing value in the
filter column is excluded for every selected range, and in particular for
the full (min, max) range, so the filtered row count is strictly below
the total row count whenever the column has a missing entry. -/
theorem numeric_filter_null_rows (df : DataFrame) (i : ℕ)
    (_hnum : tab5IsNumeric (df.dtypeAt i) = true)
    (hnull : Cell.null ∈ df.colCells i) :
    (∀ lo hi : ℚ, ∀ r ∈ (numericFilter df i lo hi).rows, r.getD i Cell.null ≠ Cell.null) ∧
    (numericFilter df i (colMin df i) (colMax df i)).rows.length < df.rows.length := by
  have hkey : ∀ lo hi : ℚ, ∀ r ∈ (numericFilter df i lo hi).rows,
      r.getD i Cell.null ≠ Cell.null := by
    intro lo hi r hr hc
    have := (List.mem_filter.mp hr).2
    rw [hc] at this
    simp [cellGEq] at this
  refine ⟨hkey, ?_⟩
  obtain ⟨r, hr, hrc⟩ := List.mem_map.mp hnull
  refine List.length_filter_lt_length_iff_exists.mpr ⟨r, hr, ?_⟩
  rw [hrc]
  simp [cellGEq]

/-- Witness for C10 at a concrete column with a missing entry: filtering
on the full range keeps fewer rows than the dataframe has. -/
theorem numeric_filter_null_rows_witness :
    (numericFilter dfWithNull 0 (colMin dfWithNull 0) (colMax dfWithNull 0)).rows.length <
      dfWithNull.rows.length :=
  (numeric_filter_null_rows dfWithNull 0 (by decide) (by decide)).2

/-- C5: every row of the Missing Values Analysis table carries a
strictly positive missing count equal to the number of null entries of
some column together with that count divided by the row count times 100;
every column with a positive missing count is listed; the table is
sorted by missing count in descending order; and the table is replaced
by the no-missing-values message exactly when no column has a missing
entry. -/
theorem missing_report_spec (df : DataFrame) :
    (∀ r ∈ missingDf df, 0 < r.count ∧
        ∃ i, i < df.cols.length ∧ r.name = df.colName i ∧ r.count = nullCount df i ∧
          r.pct = ((nullCount df i : ℚ) / (df.rows.length : ℚ)) * 100) ∧
    (∀ i, i < df.cols.length → 0 < nullCount df i →
        ∃ r ∈ missingDf df, r.name = df.colName i ∧ r.count = nullCount df i ∧
          r.pct = ((nullCount df i : ℚ) / (df.rows.length : ℚ)) * 100) ∧
    List.Sorted missRel (missingDf df) ∧
    (missingView df = MissingView.noMissing ↔ ∀ i, i < df.cols.length → nullCount df i = 0) := by
  refine ⟨?_, ?_, ?_, ?_⟩
  · intro r hr
    rw [missingDf, List.mem_insertionSort, List.mem_filter] at hr
    obtain ⟨hmem, hpos⟩ := hr
    rw [perColMissing, List.mem_map] at hmem
    obtain ⟨i, hi, hieq⟩ := hmem
    rw [List.mem_range] at hi
    refine ⟨by simpa using hpos, i, hi, ?_, ?_, ?_⟩ <;> rw [← hieq]
  · intro i hi hpos
    refine ⟨{ name := df.colName i, count := nullCount df i
              pct := ((nullCount df i : ℚ) / (df.rows.length : ℚ)) * 100 }, ?_, rfl, rfl, rfl⟩
    rw [missingDf, List.mem_insertionSort, List.mem_filter]
    refine ⟨?_, by simpa using hpos⟩
    rw [perColMissing, List.mem_map]
    exact ⟨i, List.mem_range.mpr hi, rfl⟩
  · exact List.sorted_insertionSort missRel _
  · rw [missingView]
    constructor
    · intro h i hi
      by_contra hne
      have hpos : 0 < nullCount df i := Nat.pos_of_ne_zero hne
      split at h
      · exact MissingView.noConfusion h
      · rename_i hlen
        apply hlen
        have : ({ name := df.colName i, count := nullCount df i
                  pct := ((nullCount df i : ℚ) / (df.rows.length : ℚ)) * 100 } : MissingRow) ∈
            missingDf df := by
          rw [missingDf, List.mem_insertionSort, List.mem_filter]
          refine ⟨?_, by simpa using hpos⟩
          rw [perColMissing, List.mem_map]
          exact ⟨i, List.mem_range.mpr hi, rfl⟩
        exact List.length_pos.mpr (List.ne_nil_of_mem this)
    · intro h
      have hempty : missingDf df = [] := by
        rw [missingDf]
        have : (perColMissing df).filter (fun r => 0 < r.count) = [] := by
          rw [List.filter_eq_nil_iff]
          intro r hr
          rw [perColMissing, List.mem_map] at hr
          obtain ⟨i, hi, hieq⟩ := hr
          rw [List.mem_range] at hi
          have := h i hi
          rw [← hieq]
          simp [this]
        rw [this]
        rfl
      rw [hempty]
      rfl

/-- Witness for C5 at a column with a missing entry: the report is
sorted descending. -/
theorem missing_report_witness :
    List.Sorted missRel (missingDf dfWithNull) :=
  (missing_report_spec dfWithNull).2.2.1

/-- C4 (amended): whenever the loaded dataframe has at least two
numerical columns, tab 4 renders the correlation heatmap whose underlying
matrix is the pairwise Pearson correlation matrix of the numerical
columns (entry `(a, b)` is the correlation of numerical columns `a` and
`b`), together with the Strongest Correlations table; with fewer than two
numerical columns only a warning is rendered. -/
theorem corr_heatmap_spec (df : DataFrame) (h2 : 2 ≤ (numColIdxs df).length) :
    tab4View df = Tab4Output.analysis (corrMatrixOf df) (strongestCorr df) ∧
    (corrMatrixOf df).length = (numColIdxs df).length ∧
    (∀ a, a < (numColIdxs df).length →
      ((corrMatrixOf df).getD a []).length = (numColIdxs df).length ∧
      ∀ b, b < (numColIdxs df).length →
        ((corrMatrixOf df).getD a []).getD b (CorrEntry.mk 0 0 0) =
          corrEntry (df.colCells (corrColIdx df a)) (df.colCells (corrColIdx df b))) := by
  refine ⟨by simp [tab4View, h2], by simp [corrMatrixOf], ?_⟩
  intro a ha
  have hrow : (corrMatrixOf df).getD a [] =
      (List.range (numColIdxs df).length).map (fun b => corrEntryAt df a b) := by
    simp [corrMatrixOf, List.getD_eq_getElem?_getD, List.getElem?_map, List.getElem?_range ha]
  refine ⟨by rw [hrow]; simp, ?_⟩
  intro b hb
  rw [hrow]
  simp [List.getD_eq_getElem?_getD, List.getElem?_map, List.getElem?_range hb, corrEntryAt]

/-- Witness for C4 (amended) at a dataframe with two numerical columns. -/
theorem corr_heatmap_witness :
    tab4View dfNum2 = Tab4Output.analysis (corrMatrixOf dfNum2) (strongestCorr dfNum2) :=
  (corr_heatmap_spec dfNum2 (by decide)).1

/-- Counterexample for C4 as stated: a successfully loaded dataframe with
a single (object) column renders no heatmap at all, only the
at-least-two-numerical-columns warning. -/
theorem corr_heatmap_cex :
    tab4View dfObjOnly = Tab4Output.needTwoWarning ∧
    ¬∃ m tbl, tab4View dfObjOnly = Tab4Output.analysis m tbl := by
  have e : tab4View dfObjOnly = Tab4Output.needTwoWarning := by decide
  refine ⟨e, ?_⟩
  rintro ⟨m, tbl, h⟩
  rw [e] at h
  exact Tab4Output.noConfusion h

/-- The pair tags of the `corr_pairs` enumeration are the pairs `(i, j)`
of the double loop. -/
theorem corrPairs_tags (df : DataFrame) :
    (corrPairsList df).map pairTag =
      (List.range (numColIdxs df).length).flatMap (fun i =>
        (List.range' (i + 1) ((numColIdxs df).length - (i + 1))).map (fun j => (i, j))) := by
  simp [corrPairsList, List.map_flatMap, List.map_map]
  rfl

/-- No pair of loop indices is enumerated twice. -/
theorem corrPairs_tags_nodup (df : DataFrame) :
    ((corrPairsList df).map pairTag).Nodup := by
  rw [corrPairs_tags]
  refine List.nodup_flatMap.mpr ⟨?_, ?_⟩
  · intro i _
    refine List.Nodup.map ?_ (List.nodup_range' _ _ 1 (by decide))
    intro a b h
    exact congrArg Prod.snd h
  · refine (List.nodup_range (numColIdxs df).length).imp ?_
    intro a b hne x hxa hxb
    obtain ⟨ja, _, rfl⟩ := List.mem_map.mp hxa
    obtain ⟨jb, _, hEq⟩ := List.mem_map.mp hxb
    exact hne (congrArg Prod.fst hEq.symm)

/-- Every enumerated pair satisfies `i < j < n`. -/
theorem mem_corrPairsList_ij (df : DataFrame) (r : CorrRow) (h : r ∈ corrPairsList df) :
    r.i < r.j ∧ r.j < (numColIdxs df).length := by
  simp only [corrPairsList, List.mem_flatMap] at h
  obtain ⟨i, hi, hr⟩ := h
  rw [List.mem_map] at hr
  obtain ⟨j, hj, rfl⟩ := hr
  rw [List.mem_range] at hi
  rw [List.mem_range'_1] at hj
  show i < j ∧ j < (numColIdxs df).length
  exact ⟨by omega, by omega⟩

/-- Every pair `i < j < n` is enumerated. -/
theorem pair_mem_corrPairsList (df : DataFrame) (i j : ℕ) (hij : i < j)
    (hj : j < (numColIdxs df).length) :
    ({ i := i, j := j, var1 := df.colName (corrColIdx df i),
       var2 := df.colName (corrColIdx df j), corr := corrEntryAt df i j } : CorrRow) ∈
      corrPairsList df := by
  simp only [corrPairsList, List.mem_flatMap]
  refine ⟨i, List.mem_range.mpr (lt_trans hij hj), ?_⟩
  rw [List.mem_map]
  exact ⟨j, List.mem_range'_1.mpr ⟨by omega, by omega⟩, rfl⟩

/-- C9 (amended): for every dataframe with at least two numerical
columns, the Strongest Correlations table is sorted by absolute
correlation in descending order (undefined coefficients last), has
`min 10 p` rows where `p` is the number of unordered pairs, never repeats
an unordered pair of distinct numerical columns `(i < j)`, and contains
every such pair exactly when there are at most 10 pairs. -/
theorem strongest_corr_spec (df : DataFrame) (_h2 : 2 ≤ (numColIdxs df).length) :
    List.Sorted corrRel (strongestCorr df) ∧
    (strongestCorr df).length = min 10 (corrPairsList df).length ∧
    (strongestCorr df).length ≤ 10 ∧
    ((strongestCorr df).map pairTag).Nodup ∧
    (∀ r ∈ strongestCorr df, r.i < r.j ∧ r.j < (numColIdxs df).length) ∧
    ((corrPairsList df).length ≤ 10 →
      ∀ i j, i < j → j < (numColIdxs df).length →
        ∃ r ∈ strongestCorr df, r.i = i ∧ r.j = j) := by
  have hperm := List.perm_insertionSort corrRel (corrPairsList df)
  refine ⟨?_, ?_, ?_, ?_, ?_, ?_⟩
  · exact (List.sorted_insertionSort corrRel _).sublist (List.take_sublist 10 _)
  · rw [strongestCorr, List.length_take, List.length_insertionSort]
  · rw [strongestCorr, List.length_take]
    exact min_le_left 10 _
  · have h1 : ((List.insertionSort corrRel (corrPairsList df)).map pairTag).Nodup :=
      (hperm.map pairTag).nodup_iff.mpr (corrPairs_tags_nodup df)
    rw [strongestCorr, List.map_take]
    exact h1.sublist (List.take_sublist 10 _)
  · intro r hr
    rw [strongestCorr] at hr
    exact mem_corrPairsList_ij df r (hperm.mem_iff.mp (List.mem_of_mem_take hr))
  · intro h10 i j hij hj
    have hS : (List.insertionSort corrRel (corrPairsList df)).length ≤ 10 := by
      rw [List.length_insertionSort]
      exact h10
    have hall : strongestCorr df = List.insertionSort corrRel (corrPairsList df) := by
      rw [strongestCorr]
      exact List.take_of_length_le hS
    rw [hall]
    exact ⟨_, hperm.mem_iff.mpr (pair_mem_corrPairsList df i j hij hj), rfl, rfl⟩

/-- Witness for C9 (amended) at a dataframe with two numerical columns. -/
theorem strongest_corr_witness :
    List.Sorted corrRel (strongestCorr dfNum2) :=
  (strongest_corr_spec dfNum2 (by decide)).1

/-- Counterexample for C9 as stated: with six numerical columns there are
15 unordered pairs but the table keeps only `head(10)`, so the pair of
numerical columns `(4, 5)` appears in no row of the table. -/
theorem strongest_corr_cex :
    2 ≤ (numColIdxs dfSix).length ∧
    ¬(∀ i j : ℕ, i < j → j < (numColIdxs dfSix).length →
        ∃ r ∈ strongestCorr dfSix, r.i = i ∧ r.j = j) := by
  have h6 : (numColIdxs dfSix).length = 6 := by decide
  refine ⟨by rw [h6]; omega, fun h => ?_⟩
  have hlen10 : ((strongestCorr dfSix).map pairTag).length ≤ 10 := by
    rw [List.length_map, strongestCorr, List.length_take]
    exact min_le_left 10 _
  have hmem : ∀ p ∈ [(0, 1), (0, 2), (0, 3), (0, 4), (0, 5), (1, 2), (1, 3), (1, 4), (1, 5),
      (2, 3), (2, 4), (2, 5), (3, 4), (3, 5), (4, 5)],
      p ∈ (strongestCorr dfSix).map pairTag := by
    intro p hp
    have hget : ∀ i j : ℕ, i < j → j < 6 → (i, j) ∈ (strongestCorr dfSix).map pairTag := by
      intro i j hij hj
      obtain ⟨r, hr, hri, hrj⟩ := h i j hij (by rw [h6]; exact hj)
      exact List.mem_map.mpr ⟨r, hr, by rw [pairTag, hri, hrj]⟩
    fin_cases hp <;> exact hget _ _ (by omega) (by omega)
  have hnd : ([(0, 1), (0, 2), (0, 3), (0, 4), (0, 5), (1, 2), (1, 3), (1, 4), (1, 5),
      (2, 3), (2, 4), (2, 5), (3, 4), (3, 5), (4, 5)] : List (ℕ × ℕ)).Nodup := by decide
  have h15 := (List.subperm_of_subset hnd hmem).length_le
  simp only [List.length_cons, List.length_nil] at h15
  omega
